import Mathlib

/-!
# Verification of the PyMonitor hardware-metrics core

A shallow embedding, in Lean 4, of the metrics-aggregation layer of the
PyMonitor repository (`src/monitor/utils/`): the four per-category
collectors (CPU, GPU, RAM, network) and the aggregator
`HardwareMonitor.get_all_metrics`.

Modelling conventions:
* Python floats and the integer byte counters are modelled as exact
  rationals (`ℚ`); integer values extracted from digit-only regular
  expressions (e.g. VRAM MB counts) are modelled as `ℕ`.
* A Python `Dict[str, Optional[float]]` is modelled either as a structure
  whose fields are the dict's fixed literal keys (in source order), plus a
  `toReading` function producing the association list for key-presence
  statements, or directly as an association list.
* External collaborators (psutil, WMI/LibreHardwareMonitor, NVML, shell
  tools) are modelled as explicit inputs: an `Option`/`Except` input whose
  `none`/`error` case is the collaborator raising an exception this cycle.
  Where a helper's internals are not the subject of any claim, its result
  is taken as an opaque environment input at the helper's documented
  return type.
* Python control flow around exceptions (`try`/`except`) is embedded as
  explicit branching: in particular a division whose denominator is zero
  takes the enclosing `except` branch, mirroring `ZeroDivisionError`.
-/

/-- A metric value: Python values stored in the metric dicts are floats
(here `ℚ`) or, for `cpu_model`, a string. -/
inductive Val where
  | num (q : ℚ)
  | str (s : String)
deriving DecidableEq, Repr

/-- A `CategoryReading`: a Python dict from metric key to optional value,
modelled as an association list in insertion order. -/
abbrev Reading := List (String × Option Val)

/-- The key list of a reading (the Python dict's keys, in order). -/
def keysOf (d : Reading) : List String := d.map Prod.fst

/-! ## Network collector (`src/monitor/utils/network_metrics.py`)

`NetworkMetricsCollector` keeps `last_bytes_sent`, `last_bytes_recv` and
`last_time` between calls. -/

/-- Cross-call state of `NetworkMetricsCollector`: the stored byte
baselines and timestamp (`self.last_bytes_sent`, `self.last_bytes_recv`,
`self.last_time`). -/
structure NetState where
  lastSent : ℚ
  lastRecv : ℚ
  lastTime : ℚ
deriving DecidableEq, Repr

/-- Result dict of `NetworkMetricsCollector.get_metrics`, one field per
fixed key of the returned dict (source order: `upload_speed`,
`download_speed`, `total_sent`, `total_received`). -/
structure NetMetrics where
  uploadSpeed : Option ℚ
  downloadSpeed : Option ℚ
  totalSent : Option ℚ
  totalReceived : Option ℚ
deriving DecidableEq, Repr

/-- The dict literal built by `NetworkMetricsCollector.get_metrics`, in
source key order. -/
def netToReading (m : NetMetrics) : Reading :=
  [("upload_speed", m.uploadSpeed.map Val.num),
   ("download_speed", m.downloadSpeed.map Val.num),
   ("total_sent", m.totalSent.map Val.num),
   ("total_received", m.totalReceived.map Val.num)]

/-- `NetworkMetricsCollector.get_metrics`.

Inputs: the stored state `st`; `psRes`, the result of
`psutil.net_io_counters()` (`none` = the call raises); `now`, the value of
`time.time()`; `lhm`, what `_get_lhm_network_totals()` would return in the
`except` branch (`none` covers: not Windows, WMI unavailable, the query
failing, or no data sensors found — all paths on which the source
contributes nothing).

On the success path the source computes
`(bytes - last) / (time_elapsed * 1024 * 1024)`; when `time_elapsed` is
zero this raises `ZeroDivisionError`, caught by the enclosing
`except Exception` which builds the all-`None` dict, optionally fills the
totals from LHM, and sets `last_bytes_sent = last_bytes_recv = 0`
(leaving `last_time` unchanged). -/
def netGetMetrics (st : NetState) (psRes : Option (ℚ × ℚ)) (now : ℚ)
    (lhm : Option (ℚ × ℚ)) : NetMetrics × NetState :=
  let exceptBranch : NetMetrics × NetState :=
    (⟨none, none,
      (lhm.map fun p => p.1 / 1024 ^ 3),
      (lhm.map fun p => p.2 / 1024 ^ 3)⟩,
     ⟨0, 0, st.lastTime⟩)
  match psRes with
  | none => exceptBranch
  | some (bytesSent, bytesRecv) =>
    let timeElapsed := now - st.lastTime
    if timeElapsed = 0 then
      exceptBranch
    else
      (⟨some ((bytesSent - st.lastSent) / (timeElapsed * 1024 * 1024)),
        some ((bytesRecv - st.lastRecv) / (timeElapsed * 1024 * 1024)),
        some (bytesSent / 1024 ^ 3),
        some (bytesRecv / 1024 ^ 3)⟩,
       ⟨bytesSent, bytesRecv, now⟩)

/-! Sanity checks of the network model on concrete inputs. -/

example :
    (netGetMetrics ⟨0, 0, 0⟩ (some (1000, 2000)) 1 none).1.uploadSpeed
      = some (1000 / (1024 * 1024)) := by
  norm_num [netGetMetrics]

example :
    (netGetMetrics ⟨100, 100, 5⟩ (some (200, 300)) 5 none).2 = ⟨0, 0, 5⟩ := by
  norm_num [netGetMetrics]

/-- C6: for two consecutive successful counter reads `(s₀, r₀)` at `t₀`
and `(s₁, r₁)` at `t₁ > t₀` with monotone counters, `get_metrics` returns
`upload_speed = (s₁ − s₀)/(t₁ − t₀)/1024²`, `download_speed` analogous,
`total_sent = s₁/1024³` and `total_received = r₁/1024³` (exact rational
arithmetic in place of floating point). -/
theorem net_consecutive_success_formulas
    (st : NetState) (s₀ r₀ s₁ r₁ t₀ t₁ : ℚ)
    (h₀ : st.lastTime ≠ t₀) (h₁ : t₀ < t₁) (hs : s₀ ≤ s₁) (hr : r₀ ≤ r₁) :
    (netGetMetrics st (some (s₀, r₀)) t₀ none).2 = ⟨s₀, r₀, t₀⟩ ∧
    (netGetMetrics ⟨s₀, r₀, t₀⟩ (some (s₁, r₁)) t₁ none).1 =
      ⟨some ((s₁ - s₀) / (t₁ - t₀) / (1024 * 1024)),
       some ((r₁ - r₀) / (t₁ - t₀) / (1024 * 1024)),
       some (s₁ / 1024 ^ 3),
       some (r₁ / 1024 ^ 3)⟩ := by
  have e₀ : t₀ - st.lastTime ≠ 0 := sub_ne_zero.mpr (Ne.symm h₀)
  have e₁ : t₁ - t₀ ≠ 0 := sub_ne_zero.mpr h₁.ne'
  constructor
  · simp only [netGetMetrics]
    rw [if_neg e₀]
  · simp only [netGetMetrics]
    rw [if_neg e₁]
    simp [div_div, mul_assoc]

/-- Witness for C6 at a concrete input. -/
theorem net_consecutive_success_formulas_witness :
    (NetState.lastTime ⟨0, 0, 0⟩ ≠ 1 ∧ (1 : ℚ) < 2 ∧
      (1000 : ℚ) ≤ 2048000 ∧ (2000 : ℚ) ≤ 1048576) ∧
    ((netGetMetrics ⟨0, 0, 0⟩ (some (1000, 2000)) 1 none).2 =
        ⟨1000, 2000, 1⟩ ∧
     (netGetMetrics ⟨1000, 2000, 1⟩ (some (2048000, 1048576)) 2 none).1 =
      ⟨some ((2048000 - 1000) / (2 - 1) / (1024 * 1024)),
       some ((1048576 - 2000) / (2 - 1) / (1024 * 1024)),
       some (2048000 / 1024 ^ 3),
       some (1048576 / 1024 ^ 3)⟩) :=
  ⟨⟨by norm_num, by norm_num, by norm_num, by norm_num⟩,
   net_consecutive_success_formulas ⟨0, 0, 0⟩ 1000 2000 2048000 1048576 1 2
     (by norm_num) (by norm_num) (by norm_num) (by norm_num)⟩

/-- C3, counterexample: at a zero-elapsed call the collector does report
absent speeds and does not propagate an exception, but the stored baseline
is *not* advanced to the current counters: it is reset to zero (state
`⟨100, 100, 5⟩`, counters `(200, 300)` read again at time `5`; an advanced
baseline would store `200`, the code stores `0`). -/
theorem net_zero_elapsed_counterexample :
    (netGetMetrics ⟨100, 100, 5⟩ (some (200, 300)) 5 none).1.uploadSpeed
        = none ∧
    (netGetMetrics ⟨100, 100, 5⟩ (some (200, 300)) 5 none).1.downloadSpeed
        = none ∧
    (netGetMetrics ⟨100, 100, 5⟩ (some (200, 300)) 5 none).2.lastSent = 0 ∧
    ¬ (netGetMetrics ⟨100, 100, 5⟩ (some (200, 300)) 5 none).2.lastSent
        = 200 := by
  refine ⟨?_, ?_, ?_, ?_⟩ <;> norm_num [netGetMetrics]

/-- C3, amended: when the elapsed time is zero (the internal
`ZeroDivisionError` is caught) or the counters are unavailable this cycle,
`get_metrics` does not propagate an exception and reports all four keys
absent; instead of advancing the stored baseline it resets the byte
baselines to zero and leaves the stored timestamp unchanged. -/
theorem net_degraded_cycle (st : NetState) (s r now : ℚ) :
    netGetMetrics st (some (s, r)) st.lastTime none =
      (⟨none, none, none, none⟩, ⟨0, 0, st.lastTime⟩) ∧
    netGetMetrics st none now none =
      (⟨none, none, none, none⟩, ⟨0, 0, st.lastTime⟩) := by
  constructor <;> simp [netGetMetrics]

/-- C4, counterexample: with stored baseline `sent₀ = 2097152` and a
strictly smaller current counter `sent₁ = 0` (reset/rollover) one second
later, `get_metrics` does not return an absent `upload_speed`: it returns
the present negative value `−2` MB/s. -/
theorem net_rollback_counterexample :
    (netGetMetrics ⟨2097152, 0, 0⟩ (some (0, 0)) 1 none).1.uploadSpeed
        = some (-2) ∧
    (-2 : ℚ) < 0 := by
  constructor
  · norm_num [netGetMetrics]
  · norm_num

/-- C4, amended: when the current cumulative sent counter is strictly
smaller than the stored baseline, the next call does not crash, but it
returns a *present* `upload_speed` equal to
`(sent₁ − sent₀)/((t₁ − t₀)·1024²)`, which is negative; no clamping to
zero and no absent substitution occurs. -/
theorem net_rollback_negative_speed (st : NetState) (s r t : ℚ)
    (ht : st.lastTime < t) (hs : s < st.lastSent) :
    (netGetMetrics st (some (s, r)) t none).1.uploadSpeed =
      some ((s - st.lastSent) / ((t - st.lastTime) * 1024 * 1024)) ∧
    (s - st.lastSent) / ((t - st.lastTime) * 1024 * 1024) < 0 := by
  have e : t - st.lastTime ≠ 0 := sub_ne_zero.mpr ht.ne'
  constructor
  · simp only [netGetMetrics]
    rw [if_neg e]
  · apply div_neg_of_neg_of_pos
    · exact sub_neg.mpr hs
    · have h1 : (0 : ℚ) < t - st.lastTime := sub_pos.mpr ht
      positivity

/-- Witness for the amended C4 at a concrete input. -/
theorem net_rollback_negative_speed_witness :
    (NetState.lastTime ⟨2097152, 0, 0⟩ < 1 ∧
      (0 : ℚ) < NetState.lastSent ⟨2097152, 0, 0⟩) ∧
    ((netGetMetrics ⟨2097152, 0, 0⟩ (some (0, 5)) 1 none).1.uploadSpeed =
      some ((0 - 2097152) / ((1 - 0) * 1024 * 1024)) ∧
     ((0 : ℚ) - 2097152) / ((1 - 0) * 1024 * 1024) < 0) :=
  ⟨⟨by norm_num, by norm_num⟩,
   net_rollback_negative_speed ⟨2097152, 0, 0⟩ 0 5 1
     (by norm_num) (by norm_num)⟩

/-- C5, counterexample: a run with a successful read (`sent = 2000` at
`t = 0`), a failing read at `t = 10`, and a successful read
(`sent = 4000`) at `t = 20`. The failing cycle does report all keys
absent and does reset the byte baselines to zero, but the recovery call
computes `upload_speed = 4000/(20·1024²) = (4000 − 2000)/(10·1024²)`:
exactly the bytes transferred since the last successful read (the outage
gap) divided by one sampling interval — the erroneous spike the claim
says is prevented. -/
theorem net_outage_spike_counterexample :
    (netGetMetrics ⟨2000, 500, 0⟩ none 10 none).1 =
      ⟨none, none, none, none⟩ ∧
    (netGetMetrics ⟨2000, 500, 0⟩ none 10 none).2 = ⟨0, 0, 0⟩ ∧
    (netGetMetrics ⟨0, 0, 0⟩ (some (4000, 900)) 20 none).1.uploadSpeed =
      some ((4000 - 2000) / (10 * 1024 * 1024)) := by
  refine ⟨?_, ?_, ?_⟩ <;> norm_num [netGetMetrics]

/-- C5, amended: after a call in which `psutil.net_io_counters` fails, all
four keys are absent for that cycle (unless the Windows LHM fallback
recovers the two totals, which are then `lhm/1024³`), the byte baselines
are reset to zero, and the stored timestamp is left unchanged; a later
successful call therefore divides the *full cumulative* counter by the
whole elapsed time since the last successful update, so an erroneous
recovery speed spanning the outage gap is still computed — the zero reset
does not prevent it. -/
theorem net_psutil_failure_degrades (st : NetState) (a b s r t now : ℚ)
    (ht : t ≠ st.lastTime) :
    netGetMetrics st none now none =
      (⟨none, none, none, none⟩, ⟨0, 0, st.lastTime⟩) ∧
    (netGetMetrics st none now (some (a, b))).1.totalSent =
      some (a / 1024 ^ 3) ∧
    (netGetMetrics st none now (some (a, b))).1.totalReceived =
      some (b / 1024 ^ 3) ∧
    (netGetMetrics ⟨0, 0, st.lastTime⟩ (some (s, r)) t none).1.uploadSpeed =
      some (s / ((t - st.lastTime) * 1024 * 1024)) := by
  have e : t - st.lastTime ≠ 0 := sub_ne_zero.mpr ht
  refine ⟨by simp [netGetMetrics], by simp [netGetMetrics],
    by simp [netGetMetrics], ?_⟩
  simp only [netGetMetrics]
  rw [if_neg e]
  norm_num

/-- Witness for the amended C5 at a concrete input. -/
theorem net_psutil_failure_degrades_witness :
    ((20 : ℚ) ≠ NetState.lastTime ⟨2000, 500, 0⟩) ∧
    (netGetMetrics ⟨2000, 500, 0⟩ none 10 none =
      (⟨none, none, none, none⟩, ⟨0, 0, 0⟩) ∧
     (netGetMetrics ⟨2000, 500, 0⟩ none 10 (some (7, 9))).1.totalSent =
      some (7 / 1024 ^ 3) ∧
     (netGetMetrics ⟨2000, 500, 0⟩ none 10 (some (7, 9))).1.totalReceived =
      some (9 / 1024 ^ 3) ∧
     (netGetMetrics ⟨0, 0, 0⟩ (some (4000, 900)) 20 none).1.uploadSpeed =
      some (4000 / ((20 - 0) * 1024 * 1024))) :=
  ⟨by norm_num,
   net_psutil_failure_degrades ⟨2000, 500, 0⟩ 7 9 4000 900 20 10
     (by norm_num)⟩

/-! ## RAM collector (`src/monitor/utils/ram_metrics.py`)

`RAMMetricsCollector` instances carry only `platform_system`; the LHM
RAM-temperature cache lives in *class* attributes
(`RAMMetricsCollector._lhm_ram_temp_cache`, `_lhm_ram_cache_time`,
`_lhm_ram_cache_ttl = 5`), i.e. one process-wide cache shared by every
instance.  The embedding mirrors this: the cache is a separate piece of
state threaded through calls, not a field of the instance. -/

/-- An instance of `RAMMetricsCollector` (per-instance state is just the
platform string captured in `__init__`). -/
structure RAMCollector where
  platform_system : String
deriving DecidableEq, Repr

/-- The class-level LHM cache: `_lhm_ram_temp_cache` (a temperature or
`None`) and `_lhm_ram_cache_time`. -/
structure RamCache where
  cache : Option ℚ
  time : ℚ
deriving DecidableEq, Repr

/-- `RAMMetricsCollector._lhm_ram_cache_ttl` (seconds). -/
def lhmRamCacheTtl : ℚ := 5

/-- Initial class-attribute values (`None`, `0`). -/
def initialRamCache : RamCache := ⟨none, 0⟩

/-- `RAMMetricsCollector._get_lhm_ram_metrics` as a state transition.

Inputs: `wmiAvail` — whether the module-level `wmi` import succeeded;
`plat` — the instance's `platform_system`; `st` — the shared class-level
cache; `now` — `time.time()`; `q` — the outcome of the WMI connection +
WQL sensor query (`error` = an exception, caught without touching the
cache; `ok temp` = the query completed, `temp` being the `Value` of the
first matching sensor or `none` if no sensor matched).

Returns: the delivered temperature (`some v` exactly when the source
returns the dict `{"ram_temperature": v}`, `none` when it returns
`None`), the new cache, and whether the underlying WMI query was invoked.
A cache hit requires a stored non-`None` value *and* age `< ttl`.
On a completed query the cache stores `temp` (even when `temp` is
`None`), but the function returns `None` when `temp` is `None`. -/
def lhmRamStep (wmiAvail : Bool) (plat : String) (st : RamCache) (now : ℚ)
    (q : Except Unit (Option ℚ)) : Option ℚ × RamCache × Bool :=
  if wmiAvail = false ∨ plat ≠ "Windows" then (none, st, false)
  else if st.cache ≠ none ∧ now - st.time < lhmRamCacheTtl then
    (st.cache, st, false)
  else
    match q with
    | .error _ => (none, st, true)
    | .ok temp => (temp, ⟨temp, now⟩, true)

/-- `RAMMetricsCollector._get_macos_ram_metrics`: always returns `None`
(no RAM temperature without root privileges). -/
def getMacosRamMetrics : Option ℚ := none

/-- Result dict of `RAMMetricsCollector.get_metrics`, one field per fixed
key (source order: `total`, `used`, `available`, `percent`,
`ram_temperature`). -/
structure RamMetrics where
  total : Option ℚ
  used : Option ℚ
  available : Option ℚ
  percent : Option ℚ
  ram_temperature : Option ℚ
deriving DecidableEq, Repr

/-- The dict literal built by `RAMMetricsCollector.get_metrics`, in source
key order. -/
def ramToReading (m : RamMetrics) : Reading :=
  [("total", m.total.map Val.num),
   ("used", m.used.map Val.num),
   ("available", m.available.map Val.num),
   ("percent", m.percent.map Val.num),
   ("ram_temperature", m.ram_temperature.map Val.num)]

/-- `RAMMetricsCollector.get_metrics`.

`vm` is `psutil.virtual_memory()` as `(total, used, available, percent)`
in bytes / percent (`none` = the call raises; the four keys then retain
`None`).  On Windows the LHM step runs against the shared cache;
`linuxTemp` is the Linux `sensors`-output regex outcome of
`_get_linux_ram_metrics` (`none` on tool failure or no DIMM match).
Returns the metrics, the new shared cache and whether the slow WMI query
was invoked this call. -/
def ramGetMetrics (inst : RAMCollector) (wmiAvail : Bool)
    (vm : Option (ℚ × ℚ × ℚ × ℚ)) (st : RamCache) (now : ℚ)
    (q : Except Unit (Option ℚ)) (linuxTemp : Option ℚ) :
    RamMetrics × RamCache × Bool :=
  let base : RamMetrics :=
    match vm with
    | none => ⟨none, none, none, none, none⟩
    | some (total, used, avail, pct) =>
        ⟨some (total / 1024 ^ 3), some (used / 1024 ^ 3),
         some (avail / 1024 ^ 3), some pct, none⟩
  if inst.platform_system = "Windows" then
    let r := lhmRamStep wmiAvail inst.platform_system st now q
    (match r.1 with
     | some v => { base with ram_temperature := some v }
     | none => base,
     r.2)
  else if inst.platform_system = "Darwin" then
    (match getMacosRamMetrics with
     | some v => { base with ram_temperature := some v }
     | none => base,
     st, false)
  else if inst.platform_system = "Linux" then
    (match linuxTemp with
     | some v => { base with ram_temperature := some v }
     | none => base,
     st, false)
  else (base, st, false)

example :
    (lhmRamStep true "Windows" ⟨none, 0⟩ 3 (.ok (some 41))) =
      (some 41, ⟨some 41, 3⟩, true) := by
  norm_num [lhmRamStep]

/-- C7: on the management-interface platform (Windows), if a call to
`get_metrics` runs the slow LHM query (empty cache) and it produces a
temperature `v`, then any second call within the 5-second TTL — made by
*any* collector instance, since the cache is the shared class-level state
threaded here, not an instance field — yields the identical
`ram_temperature = v`, does not re-invoke the underlying query, and
leaves the cache unchanged. -/
theorem ram_temp_cache_hit
    (i₁ i₂ : RAMCollector) (vm₁ vm₂ : Option (ℚ × ℚ × ℚ × ℚ))
    (st : RamCache) (t₀ t₁ v : ℚ) (q₂ : Except Unit (Option ℚ))
    (lt₁ lt₂ : Option ℚ)
    (h₁ : i₁.platform_system = "Windows")
    (h₂ : i₂.platform_system = "Windows")
    (hmiss : st.cache = none)
    (httl : t₁ - t₀ < lhmRamCacheTtl) :
    (ramGetMetrics i₁ true vm₁ st t₀ (.ok (some v)) lt₁).1.ram_temperature
        = some v ∧
    (ramGetMetrics i₁ true vm₁ st t₀ (.ok (some v)) lt₁).2 =
        (⟨some v, t₀⟩, true) ∧
    (ramGetMetrics i₂ true vm₂ ⟨some v, t₀⟩ t₁ q₂ lt₂).1.ram_temperature
        = some v ∧
    (ramGetMetrics i₂ true vm₂ ⟨some v, t₀⟩ t₁ q₂ lt₂).2 =
        (⟨some v, t₀⟩, false) := by
  have hstep₁ : lhmRamStep true "Windows" st t₀ (.ok (some v)) =
      (some v, ⟨some v, t₀⟩, true) := by
    simp [lhmRamStep, hmiss]
  have hstep₂ : lhmRamStep true "Windows" ⟨some v, t₀⟩ t₁ q₂ =
      (some v, ⟨some v, t₀⟩, false) := by
    simp only [lhmRamStep]
    rw [if_neg (by simp), if_pos (by exact ⟨by simp, httl⟩)]
  refine ⟨?_, ?_, ?_, ?_⟩ <;>
    simp only [ramGetMetrics, h₁, h₂, if_true, hstep₁, hstep₂]

/-- Witness for C7 at a concrete input. -/
theorem ram_temp_cache_hit_witness :
    (RAMCollector.platform_system ⟨"Windows"⟩ = "Windows" ∧
     RamCache.cache ⟨none, 0⟩ = none ∧ (3 : ℚ) - 1 < lhmRamCacheTtl) ∧
    ((ramGetMetrics ⟨"Windows"⟩ true none ⟨none, 0⟩ 1 (.ok (some 41))
        none).1.ram_temperature = some 41 ∧
     (ramGetMetrics ⟨"Windows"⟩ true none ⟨none, 0⟩ 1 (.ok (some 41))
        none).2 = (⟨some 41, 1⟩, true) ∧
     (ramGetMetrics ⟨"Windows"⟩ true none ⟨some 41, 1⟩ 3 (.error ())
        none).1.ram_temperature = some 41 ∧
     (ramGetMetrics ⟨"Windows"⟩ true none ⟨some 41, 1⟩ 3 (.error ())
        none).2 = (⟨some 41, 1⟩, false)) :=
  ⟨⟨rfl, rfl, by norm_num [lhmRamCacheTtl]⟩,
   ram_temp_cache_hit ⟨"Windows"⟩ ⟨"Windows"⟩ none none ⟨none, 0⟩ 1 3 41
     (.error ()) none none rfl rfl rfl (by norm_num [lhmRamCacheTtl])⟩

/-- C10: if the LHM query completes but finds no matching sensor, the
stored cache value is `None`; since a cache hit requires a stored
non-`None` value, every subsequent Windows call — even within the TTL —
re-invokes the underlying query. -/
theorem ram_temp_absent_not_cached
    (i₁ i₂ : RAMCollector) (vm₁ vm₂ : Option (ℚ × ℚ × ℚ × ℚ))
    (st : RamCache) (t₀ t₁ : ℚ) (q₂ : Except Unit (Option ℚ))
    (lt₁ lt₂ : Option ℚ)
    (h₁ : i₁.platform_system = "Windows")
    (h₂ : i₂.platform_system = "Windows")
    (hmiss : st.cache = none) :
    (ramGetMetrics i₁ true vm₁ st t₀ (.ok none) lt₁).1.ram_temperature
        = none ∧
    (ramGetMetrics i₁ true vm₁ st t₀ (.ok none) lt₁).2 =
        (⟨none, t₀⟩, true) ∧
    (ramGetMetrics i₂ true vm₂ ⟨none, t₀⟩ t₁ q₂ lt₂).2.2 = true := by
  have hstep₁ : lhmRamStep true "Windows" st t₀ (.ok none) =
      (none, ⟨none, t₀⟩, true) := by
    simp [lhmRamStep, hmiss]
  have hstep₂ : (lhmRamStep true "Windows" ⟨none, t₀⟩ t₁ q₂).2.2 = true := by
    simp only [lhmRamStep]
    rw [if_neg (by simp), if_neg (by simp)]
    rcases q₂ with _ | t <;> rfl
  refine ⟨?_, ?_, ?_⟩
  · simp only [ramGetMetrics, h₁, if_true, hstep₁]
    rcases vm₁ with _ | ⟨a, b, c, d⟩ <;> rfl
  · simp only [ramGetMetrics, h₁, if_true, hstep₁]
  · simp only [ramGetMetrics, h₂, if_true]
    exact hstep₂

/-- Witness for C10 at a concrete input. -/
theorem ram_temp_absent_not_cached_witness :
    (RAMCollector.platform_system ⟨"Windows"⟩ = "Windows" ∧
     RamCache.cache ⟨none, 0⟩ = none) ∧
    ((ramGetMetrics ⟨"Windows"⟩ true none ⟨none, 0⟩ 1 (.ok none)
        none).1.ram_temperature = none ∧
     (ramGetMetrics ⟨"Windows"⟩ true none ⟨none, 0⟩ 1 (.ok none)
        none).2 = (⟨none, 1⟩, true) ∧
     (ramGetMetrics ⟨"Windows"⟩ true none ⟨none, 1⟩ 2 (.ok (some 37))
        none).2.2 = true) :=
  ⟨⟨rfl, rfl⟩,
   ram_temp_absent_not_cached ⟨"Windows"⟩ ⟨"Windows"⟩ none none ⟨none, 0⟩ 1 2
     (.ok (some 37)) none none rfl rfl rfl⟩

/-! ## CPU collector (`src/monitor/utils/cpu_metrics.py`) -/

/-- Python's substring containment test `needle in hay`. -/
def containsStr (hay needle : String) : Bool :=
  decide (needle.data <:+: hay.data)

/-- A WMI sensor object as consumed by the LHM scan loops: `hasValue`
models `hasattr(sensor, "Value")` (sensors without it are skipped);
`value` is the `Value` attribute itself, which may be Python `None` and is
copied verbatim into the metrics dict. -/
structure Sensor where
  hasValue : Bool
  sensorType : String
  name : String
  value : Option ℚ
deriving DecidableEq, Repr

/-- The four-key metrics dict literal (`frequency`, `usage`,
`temperature`, `voltage`, all `None`) used by
`_get_libre_hardware_metrics`, `_get_windows_basic_metrics` and
`_get_linux_metrics`. -/
structure CpuPartial where
  frequency : Option ℚ
  usage : Option ℚ
  temperature : Option ℚ
  voltage : Option ℚ
deriving DecidableEq, Repr

/-- The all-`None` initial dict. -/
def cpuInitPartial : CpuPartial := ⟨none, none, none, none⟩

/-- The sensor-classification loop of
`CPUMetricsCollector._get_libre_hardware_metrics` (lines 150–175).

Branch structure, exactly as in the source:
* sensors without a `Value` attribute are skipped;
* `Temperature`: a name containing `"CPU Package"` or
  `"Core (Tctl/Tdie)"` assigns unconditionally and then `break`s out of
  the whole loop; otherwise a name containing `"CPU"` assigns only if the
  key is still `None`;
* `Voltage`: a name containing `"CPU Core"` or `"CPU VCORE"` assigns
  unconditionally (no `None` guard); otherwise a name containing `"CPU"`
  assigns only if still `None`;
* `Clock`: a name equal to `"CPU Core #1"` assigns unconditionally;
  otherwise a name containing `"CPU"` assigns only if still `None`;
* `Load` with a name containing `"CPU Total"` assigns unconditionally. -/
def lhmScan : List Sensor → CpuPartial → CpuPartial
  | [], m => m
  | s :: rest, m =>
    if s.hasValue = false then lhmScan rest m
    else if s.sensorType = "Temperature" then
      if containsStr s.name "CPU Package"
          || containsStr s.name "Core (Tctl/Tdie)" then
        { m with temperature := s.value }
      else if containsStr s.name "CPU" && m.temperature.isNone then
        lhmScan rest { m with temperature := s.value }
      else lhmScan rest m
    else if s.sensorType = "Voltage" then
      if containsStr s.name "CPU Core" || containsStr s.name "CPU VCORE" then
        lhmScan rest { m with voltage := s.value }
      else if containsStr s.name "CPU" && m.voltage.isNone then
        lhmScan rest { m with voltage := s.value }
      else lhmScan rest m
    else if s.sensorType = "Clock" then
      if s.name = "CPU Core #1" then
        lhmScan rest { m with frequency := s.value }
      else if containsStr s.name "CPU" && m.frequency.isNone then
        lhmScan rest { m with frequency := s.value }
      else lhmScan rest m
    else if s.sensorType = "Load" ∧ containsStr s.name "CPU Total" then
      lhmScan rest { m with usage := s.value }
    else lhmScan rest m

/-- `CPUMetricsCollector._get_libre_hardware_metrics`: outside Windows (or
without the `wmi` module) or when the LHM WMI connection fails, the
all-`None` dict is returned; otherwise the sensors are scanned. -/
def getLibreHardwareMetrics (plat : String) (wmiAvail : Bool)
    (conn : Option (List Sensor)) : CpuPartial :=
  if plat = "Windows" ∧ wmiAvail = true then
    match conn with
    | none => cpuInitPartial
    | some sensors => lhmScan sensors cpuInitPartial
  else cpuInitPartial

example :
    lhmScan [⟨true, "Load", "CPU Total", some 10⟩] cpuInitPartial =
      ⟨none, some 10, none, none⟩ := by decide

/-- C8, counterexample: two `Voltage` sensors both named `"CPU Core"` (the
specific preferred name) with values `1` then `2`: the scan yields
`voltage = 2`, i.e. the *later* matching sensor overwrote the key that was
already filled — first-match-wins does not hold for preferred matches. -/
theorem cpu_scan_overwrite_counterexample :
    (lhmScan [⟨true, "Voltage", "CPU Core", some 1⟩,
              ⟨true, "Voltage", "CPU Core", some 2⟩]
        cpuInitPartial).voltage = some 2 ∧
    ¬ (lhmScan [⟨true, "Voltage", "CPU Core", some 1⟩,
                ⟨true, "Voltage", "CPU Core", some 2⟩]
        cpuInitPartial).voltage = some 1 := by decide

/-- C8, amended: in the LHM sensor scan, classification is
first-match-wins only for the generic "name contains `CPU`" fallback
matches (they are guarded by the key still being `None`); the specific
preferred names always assign, so a later preferred match overwrites an
already-filled key (last preferred match wins), a preferred
`Temperature` match additionally stops the entire scan, and every
`Load`/`CPU Total` match overwrites `usage`.  Preferred names do take
priority over the generic fallback, which is checked only after them. -/
theorem cpu_scan_match_policy (s : Sensor) (rest : List Sensor)
    (m : CpuPartial) (hv : s.hasValue = true) :
    (s.sensorType = "Voltage" →
      (containsStr s.name "CPU Core" || containsStr s.name "CPU VCORE")
          = true →
      lhmScan (s :: rest) m = lhmScan rest { m with voltage := s.value }) ∧
    (s.sensorType = "Voltage" →
      (containsStr s.name "CPU Core" || containsStr s.name "CPU VCORE")
          = false →
      (containsStr s.name "CPU" && m.voltage.isNone) = false →
      lhmScan (s :: rest) m = lhmScan rest m) ∧
    (s.sensorType = "Temperature" →
      (containsStr s.name "CPU Package"
          || containsStr s.name "Core (Tctl/Tdie)") = true →
      lhmScan (s :: rest) m = { m with temperature := s.value }) ∧
    (s.sensorType = "Load" → containsStr s.name "CPU Total" = true →
      lhmScan (s :: rest) m = lhmScan rest { m with usage := s.value }) := by
  refine ⟨fun ht hc => ?_, fun ht hc hf => ?_, fun ht hc => ?_,
    fun ht hc => ?_⟩
  · simp [lhmScan, hv, ht, hc]
  · simp [lhmScan, hv, ht, hc, hf]
  · simp [lhmScan, hv, ht, hc]
  · simp [lhmScan, hv, ht, hc]

/-- Witness for the amended C8 at a concrete input: a preferred-name
`Voltage` sensor overwrites an already-filled voltage key. -/
theorem cpu_scan_match_policy_witness :
    (Sensor.hasValue ⟨true, "Voltage", "CPU Core", some 2⟩ = true ∧
     Sensor.sensorType ⟨true, "Voltage", "CPU Core", some 2⟩ = "Voltage" ∧
     (containsStr "CPU Core" "CPU Core" || containsStr "CPU Core" "CPU VCORE")
         = true) ∧
    lhmScan [⟨true, "Voltage", "CPU Core", some 2⟩] ⟨none, none, none, some 1⟩
      = lhmScan [] ⟨none, none, none, some 2⟩ :=
  ⟨⟨rfl, rfl, by decide⟩,
   (cpu_scan_match_policy ⟨true, "Voltage", "CPU Core", some 2⟩ []
      ⟨none, none, none, some 1⟩ rfl).1 rfl (by decide)⟩

/-- Result dict of `CPUMetricsCollector.get_metrics`, one field per fixed
key (source order: `frequency`, `usage`, `temperature`, `voltage`,
`cpu_model`). -/
structure CpuMetrics where
  frequency : Option ℚ
  usage : Option ℚ
  temperature : Option ℚ
  voltage : Option ℚ
  cpu_model : Option String
deriving DecidableEq, Repr

/-- The dict literal built by `CPUMetricsCollector.get_metrics`, in source
key order. -/
def cpuToReading (m : CpuMetrics) : Reading :=
  [("frequency", m.frequency.map Val.num),
   ("usage", m.usage.map Val.num),
   ("temperature", m.temperature.map Val.num),
   ("voltage", m.voltage.map Val.num),
   ("cpu_model", m.cpu_model.map Val.str)]

/-- One key of the loop `if value is not None: metrics[key] = value`. -/
def fillIfSome {α : Type} (old newV : Option α) : Option α :=
  match newV with
  | some v => some v
  | none => old

/-- One key of the loop
`if metrics[key] is None and value is not None: metrics[key] = value`. -/
def fillGap {α : Type} (old newV : Option α) : Option α :=
  match old with
  | some v => some v
  | none => newV

/-- `CPUMetricsCollector.get_metrics`.

Environment inputs beyond the LHM scan: `basic` is the result of
`_get_windows_basic_metrics()`, `mac` of `_get_macos_metrics()` (whose
dict also carries `cpu_model`), `lin` of `_get_linux_metrics()` — all
three helpers catch their own exceptions and return their four- or
five-key dict, so they are taken as opaque inputs at their return type;
their
internals are not the subject of any claim.  `otherUsage` is
`psutil.cpu_percent(interval=0.1)` on the fallback branch for other
platforms.  The Windows branch overlays the LHM values on the all-`None`
dict (`if value is not None`), then fills remaining gaps from the basic
metrics; the macOS/Linux branches overlay their helper's dict. -/
def cpuGetMetrics (plat : String) (wmiAvail : Bool)
    (conn : Option (List Sensor)) (basic : CpuPartial) (mac : CpuMetrics)
    (lin : CpuPartial) (otherUsage : ℚ) : CpuMetrics :=
  let metrics : CpuMetrics := ⟨none, none, none, none, none⟩
  if plat = "Windows" then
    let lhm := getLibreHardwareMetrics plat wmiAvail conn
    let m1 : CpuMetrics :=
      ⟨fillIfSome metrics.frequency lhm.frequency,
       fillIfSome metrics.usage lhm.usage,
       fillIfSome metrics.temperature lhm.temperature,
       fillIfSome metrics.voltage lhm.voltage,
       metrics.cpu_model⟩
    ⟨fillGap m1.frequency basic.frequency,
     fillGap m1.usage basic.usage,
     fillGap m1.temperature basic.temperature,
     fillGap m1.voltage basic.voltage,
     m1.cpu_model⟩
  else if plat = "Darwin" then
    ⟨fillIfSome metrics.frequency mac.frequency,
     fillIfSome metrics.usage mac.usage,
     fillIfSome metrics.temperature mac.temperature,
     fillIfSome metrics.voltage mac.voltage,
     fillIfSome metrics.cpu_model mac.cpu_model⟩
  else if plat = "Linux" then
    ⟨fillIfSome metrics.frequency lin.frequency,
     fillIfSome metrics.usage lin.usage,
     fillIfSome metrics.temperature lin.temperature,
     fillIfSome metrics.voltage lin.voltage,
     metrics.cpu_model⟩
  else { metrics with usage := some otherUsage }

/-! ## GPU collector (`src/monitor/utils/gpu_metrics.py`) -/

/-- Result dict of `GPUMetricsCollector._get_nvidia_metrics` (and of
`get_metrics`), one field per fixed key, in source order. -/
structure GpuMetrics where
  core_frequency : Option ℚ
  core_usage : Option ℚ
  core_temperature : Option ℚ
  memory_frequency : Option ℚ
  vram_usage_percent : Option ℚ
  memory_temperature : Option ℚ
  hotspot_temperature : Option ℚ
  fan_speed : Option ℚ
  vram_used_gb : Option ℚ
  vram_total_gb : Option ℚ
deriving DecidableEq, Repr

/-- The all-`None` initial GPU dict. -/
def gpuInit : GpuMetrics :=
  ⟨none, none, none, none, none, none, none, none, none, none⟩

/-- The dict built by `GPUMetricsCollector.get_metrics`, in source key
order. -/
def gpuToReading (m : GpuMetrics) : Reading :=
  [("core_frequency", m.core_frequency.map Val.num),
   ("core_usage", m.core_usage.map Val.num),
   ("core_temperature", m.core_temperature.map Val.num),
   ("memory_frequency", m.memory_frequency.map Val.num),
   ("vram_usage_percent", m.vram_usage_percent.map Val.num),
   ("memory_temperature", m.memory_temperature.map Val.num),
   ("hotspot_temperature", m.hotspot_temperature.map Val.num),
   ("fan_speed", m.fan_speed.map Val.num),
   ("vram_used_gb", m.vram_used_gb.map Val.num),
   ("vram_total_gb", m.vram_total_gb.map Val.num)]

/-- The NVML read results for one `_get_nvidia_metrics` call, in call
order; `none` means that NVML call raises.  `memInfo` is
`(mem_info.used, mem_info.total)` in bytes (`ℕ`, as NVML returns
integers). -/
structure NvidiaEnv where
  temp : Option ℚ
  util : Option ℚ
  clock : Option ℚ
  memInfo : Option (ℕ × ℕ)
  memClock : Option ℚ
  memTemp : Option ℚ
  hotspot : Option ℚ
  fan : Option ℚ
deriving DecidableEq, Repr

/-- `GPUMetricsCollector._get_nvidia_metrics`.

The body is one `try` block: the first failing mandatory read aborts the
rest (the outer `except` returns the dict as built so far).  In
particular `mem_info.used / mem_info.total` with `total = 0` raises
`ZeroDivisionError` *before* any of the three VRAM keys is assigned, so
the three are set together or not at all.  Each of the memory/hotspot
temperature reads has its own inner `try` and assigns only on success;
the fan read assigns `None` on failure. -/
def getNvidiaMetrics (handle : Bool) (env : NvidiaEnv) : GpuMetrics :=
  if handle = false then gpuInit
  else
    match env.temp with
    | none => gpuInit
    | some t =>
      let m1 := { gpuInit with core_temperature := some t }
      match env.util with
      | none => m1
      | some uu =>
        let m2 := { m1 with core_usage := some uu }
        match env.clock with
        | none => m2
        | some c =>
          let m3 := { m2 with core_frequency := some c }
          match env.memInfo with
          | none => m3
          | some (used, total) =>
            if total = 0 then m3
            else
              let m4 := { m3 with
                vram_usage_percent := some ((used : ℚ) / total * 100),
                vram_used_gb := some ((used : ℚ) / 1024 ^ 3),
                vram_total_gb := some ((total : ℚ) / 1024 ^ 3) }
              match env.memClock with
              | none => m4
              | some mc =>
                let m5 := { m4 with memory_frequency := some mc }
                { m5 with
                  memory_temperature :=
                    fillIfSome m5.memory_temperature env.memTemp,
                  hotspot_temperature :=
                    fillIfSome m5.hotspot_temperature env.hotspot,
                  fan_speed := env.fan }

/-- Result dict of `GPUMetricsCollector._get_lhm_metrics` (fixed eight
keys; LHM provides no `vram_used_gb`/`vram_total_gb`).  The sensor scan
internals are not the subject of any claim, so the helper's result is an
opaque environment input at its return type. -/
structure LhmGpu where
  core_frequency : Option ℚ
  core_usage : Option ℚ
  core_temperature : Option ℚ
  memory_frequency : Option ℚ
  vram_usage_percent : Option ℚ
  memory_temperature : Option ℚ
  hotspot_temperature : Option ℚ
  fan_speed : Option ℚ
deriving DecidableEq, Repr

/-- `GPUMetricsCollector._get_macos_gpu_metrics`: can set only
`vram_total_gb` (from the VRAM line, already converted to GB) and
`core_usage` (from `ioreg`); every other key stays `None`. -/
def getMacosGpuMetrics (vramTotal coreUsage : Option ℚ) : GpuMetrics :=
  { gpuInit with vram_total_gb := vramTotal, core_usage := coreUsage }

/-- The `rocm-smi` regex outcomes in
`GPUMetricsCollector._get_linux_gpu_metrics`: temperature, usage, and the
VRAM `used/total` MB pair (digit-only regex, hence `ℕ`). -/
structure AmdRocm where
  temp : Option ℚ
  usage : Option ℚ
  vram : Option (ℕ × ℕ)
deriving DecidableEq, Repr

/-- The branch taken by `_get_linux_gpu_metrics` after `lspci -v`:
`failed` = `lspci` missing or raising; `nvidiaSeen` = output mentions
NVIDIA (nothing to do, NVML already ran); `amd` = AMD/Radeon present,
with the `rocm-smi` outcome (`none` = tool missing or raising) and the
`sensors` edge-temperature fallback; `intel` = Intel graphics with the
`gpu_busy_percent` outcome; `other` = none of the keywords matched. -/
inductive LinuxGpuDetect where
  | failed
  | nvidiaSeen
  | amd (rocm : Option AmdRocm) (edgeTemp : Option ℚ)
  | intel (busy : Option ℚ)
  | other
deriving DecidableEq, Repr

/-- `GPUMetricsCollector._get_linux_gpu_metrics`.  In the AMD branch the
three VRAM keys are set from one regex match; `vram_usage_percent` is
`(used/total)*100 if total_mb > 0 else None` while the two GB keys are
set unconditionally.  If no temperature was found, the `sensors` edge
reading fills it. -/
def getLinuxGpuMetrics : LinuxGpuDetect → GpuMetrics
  | .failed => gpuInit
  | .nvidiaSeen => gpuInit
  | .other => gpuInit
  | .intel busy => { gpuInit with core_usage := busy }
  | .amd rocm edge =>
    let m :=
      match rocm with
      | none => gpuInit
      | some rd =>
        let m1 := { gpuInit with
          core_temperature := fillIfSome gpuInit.core_temperature rd.temp }
        let m2 := { m1 with
          core_usage := fillIfSome m1.core_usage rd.usage }
        match rd.vram with
        | none => m2
        | some (usedMb, totalMb) =>
          { m2 with
            vram_used_gb := some ((usedMb : ℚ) / 1024),
            vram_total_gb := some ((totalMb : ℚ) / 1024),
            vram_usage_percent :=
              if 0 < totalMb then some ((usedMb : ℚ) / totalMb * 100)
              else none }
    { m with core_temperature := fillGap m.core_temperature edge }

/-- Gap-filling merge `if metrics.get(key) is None and value is not None`
over all ten keys (used for the macOS and Linux platform dicts, whose key
sets equal the NVML dict's, so the add-new-keys branch never fires). -/
def gpuFillGapAll (m p : GpuMetrics) : GpuMetrics :=
  ⟨fillGap m.core_frequency p.core_frequency,
   fillGap m.core_usage p.core_usage,
   fillGap m.core_temperature p.core_temperature,
   fillGap m.memory_frequency p.memory_frequency,
   fillGap m.vram_usage_percent p.vram_usage_percent,
   fillGap m.memory_temperature p.memory_temperature,
   fillGap m.hotspot_temperature p.hotspot_temperature,
   fillGap m.fan_speed p.fan_speed,
   fillGap m.vram_used_gb p.vram_used_gb,
   fillGap m.vram_total_gb p.vram_total_gb⟩

/-- `GPUMetricsCollector.get_metrics`: NVML first, then the
platform-specific dict fills gaps only.  On Windows the LHM dict has only
eight keys, so `vram_used_gb`/`vram_total_gb` keep their NVML values (the
`key not in metrics` branch never fires because every LHM key is an NVML
key). -/
def gpuGetMetrics (plat : String) (handle : Bool) (nv : NvidiaEnv)
    (lhm : LhmGpu) (macVramTotal macCoreUsage : Option ℚ)
    (lin : LinuxGpuDetect) : GpuMetrics :=
  let m := getNvidiaMetrics handle nv
  if plat = "Windows" then
    { core_frequency := fillGap m.core_frequency lhm.core_frequency,
      core_usage := fillGap m.core_usage lhm.core_usage,
      core_temperature := fillGap m.core_temperature lhm.core_temperature,
      memory_frequency := fillGap m.memory_frequency lhm.memory_frequency,
      vram_usage_percent :=
        fillGap m.vram_usage_percent lhm.vram_usage_percent,
      memory_temperature :=
        fillGap m.memory_temperature lhm.memory_temperature,
      hotspot_temperature :=
        fillGap m.hotspot_temperature lhm.hotspot_temperature,
      fan_speed := fillGap m.fan_speed lhm.fan_speed,
      vram_used_gb := m.vram_used_gb,
      vram_total_gb := m.vram_total_gb }
  else if plat = "Darwin" then
    gpuFillGapAll m (getMacosGpuMetrics macVramTotal macCoreUsage)
  else if plat = "Linux" then
    gpuFillGapAll m (getLinuxGpuMetrics lin)
  else m

/-- Unit scaling cancels in the VRAM ratio. -/
lemma vram_pct_scale (a b k : ℚ) (hk : k ≠ 0) :
    a / k / (b / k) * 100 = a / b * 100 := by
  rw [div_div_div_cancel_right₀ hk]

/-- In `_get_nvidia_metrics` the three VRAM keys are set together or not
at all, and when set they come from one `mem_info` read with a nonzero
total. -/
lemma getNvidiaMetrics_vram (h : Bool) (nv : NvidiaEnv) :
    ((getNvidiaMetrics h nv).vram_used_gb = none ∧
     (getNvidiaMetrics h nv).vram_total_gb = none ∧
     (getNvidiaMetrics h nv).vram_usage_percent = none) ∨
    (∃ a b : ℕ, b ≠ 0 ∧ nv.memInfo = some (a, b) ∧
     (getNvidiaMetrics h nv).vram_used_gb = some ((a : ℚ) / 1024 ^ 3) ∧
     (getNvidiaMetrics h nv).vram_total_gb = some ((b : ℚ) / 1024 ^ 3) ∧
     (getNvidiaMetrics h nv).vram_usage_percent =
       some ((a : ℚ) / (b : ℚ) * 100)) := by
  rcases nv with ⟨temp, util, clock, memInfo, memClock, memTemp, hotspot, fan⟩
  cases h
  · left; simp [getNvidiaMetrics, gpuInit]
  · rcases temp with _ | t
    · left; simp [getNvidiaMetrics, gpuInit]
    · rcases util with _ | uu
      · left; simp [getNvidiaMetrics, gpuInit]
      · rcases clock with _ | c
        · left; simp [getNvidiaMetrics, gpuInit]
        · rcases memInfo with _ | ⟨a, b⟩
          · left; simp [getNvidiaMetrics, gpuInit]
          · by_cases hb : b = 0
            · left; simp [getNvidiaMetrics, gpuInit, hb]
            · right
              refine ⟨a, b, hb, rfl, ?_, ?_, ?_⟩ <;>
                rcases memClock with _ | mc <;>
                simp [getNvidiaMetrics, gpuInit, hb]

/-- In `_get_linux_gpu_metrics` the VRAM keys are all absent, or all set
from one `rocm-smi` match with positive total, or — when the matched
total is `0` MB — the two GB keys are set while the percent is `None`. -/
lemma getLinuxGpuMetrics_vram (lin : LinuxGpuDetect) :
    ((getLinuxGpuMetrics lin).vram_used_gb = none ∧
     (getLinuxGpuMetrics lin).vram_total_gb = none ∧
     (getLinuxGpuMetrics lin).vram_usage_percent = none) ∨
    (∃ a b : ℕ, 0 < b ∧
     (getLinuxGpuMetrics lin).vram_used_gb = some ((a : ℚ) / 1024) ∧
     (getLinuxGpuMetrics lin).vram_total_gb = some ((b : ℚ) / 1024) ∧
     (getLinuxGpuMetrics lin).vram_usage_percent =
       some ((a : ℚ) / (b : ℚ) * 100)) ∨
    (∃ a : ℕ,
     (getLinuxGpuMetrics lin).vram_used_gb = some ((a : ℚ) / 1024) ∧
     (getLinuxGpuMetrics lin).vram_total_gb = some 0 ∧
     (getLinuxGpuMetrics lin).vram_usage_percent = none) := by
  rcases lin with _ | _ | ⟨rocm, edge⟩ | busy | _
  · left; simp [getLinuxGpuMetrics, gpuInit]
  · left; simp [getLinuxGpuMetrics, gpuInit]
  · rcases rocm with _ | ⟨rt, ru, rv⟩
    · left; simp [getLinuxGpuMetrics, gpuInit]
    · rcases rv with _ | ⟨a, b⟩
      · left; simp [getLinuxGpuMetrics, gpuInit]
      · by_cases hb : 0 < b
        · right; left
          exact ⟨a, b, hb, by simp [getLinuxGpuMetrics, hb],
            by simp [getLinuxGpuMetrics, hb],
            by simp [getLinuxGpuMetrics, hb]⟩
        · right; right
          have hb0 : b = 0 := Nat.eq_zero_of_not_pos hb
          exact ⟨a, by simp [getLinuxGpuMetrics, hb],
            by simp [getLinuxGpuMetrics, hb, hb0],
            by simp [getLinuxGpuMetrics, hb]⟩
  · left; simp [getLinuxGpuMetrics, gpuInit]
  · left; simp [getLinuxGpuMetrics, gpuInit]

/-- C9, counterexample: on Linux with no NVML handle, a `rocm-smi` VRAM
match of `123/0 MB` (degenerate zero total) sets
`vram_used_gb = 123/1024` and `vram_total_gb = 0` — both present, from
the same source — while `vram_usage_percent` is `None`, because the
percent assignment is guarded by `total_mb > 0`. -/
theorem gpu_vram_counterexample :
    (gpuGetMetrics "Linux" false ⟨none, none, none, none, none, none, none,
        none⟩ ⟨none, none, none, none, none, none, none, none⟩ none none
        (.amd (some ⟨none, none, some (123, 0)⟩) none)).vram_used_gb
      = some (123 / 1024) ∧
    (gpuGetMetrics "Linux" false ⟨none, none, none, none, none, none, none,
        none⟩ ⟨none, none, none, none, none, none, none, none⟩ none none
        (.amd (some ⟨none, none, some (123, 0)⟩) none)).vram_total_gb
      = some 0 ∧
    (gpuGetMetrics "Linux" false ⟨none, none, none, none, none, none, none,
        none⟩ ⟨none, none, none, none, none, none, none, none⟩ none none
        (.amd (some ⟨none, none, some (123, 0)⟩) none)).vram_usage_percent
      = none := by
  have hW : ("Linux" : String) ≠ "Windows" := by decide
  have hD : ("Linux" : String) ≠ "Darwin" := by decide
  refine ⟨?_, ?_, ?_⟩ <;>
    simp [gpuGetMetrics, getNvidiaMetrics, getLinuxGpuMetrics, gpuFillGapAll,
      getMacosGpuMetrics, gpuInit, fillGap, fillIfSome, hW, hD]

lemma fillGap_none {α : Type} (x : Option α) : fillGap x none = x := by
  cases x <;> rfl

lemma fillGap_some_left {α : Type} (v : α) (y : Option α) :
    fillGap (some v) y = some v := rfl

lemma fillGap_none_left {α : Type} (y : Option α) : fillGap none y = y := rfl

/-- Rescaled VRAM pairs give the same percent. -/
lemma some_pct_eq (a b : ℕ) (k u tot : ℚ) (hk : k ≠ 0)
    (hu : some ((a : ℚ) / k) = some u) (ht : some ((b : ℚ) / k) = some tot) :
    some ((a : ℚ) / (b : ℚ) * 100) = some (u / tot * 100) := by
  obtain hu' := Option.some.inj hu
  obtain ht' := Option.some.inj ht
  rw [← hu', ← ht', vram_pct_scale a b k hk]

/-- C9, amended: whenever the merged GPU reading contains both
`vram_used_gb` and `vram_total_gb` with a nonzero total,
`vram_usage_percent` is present and equals `used/total × 100` (exactly,
in rational arithmetic); with a zero total (possible only via a
degenerate `rocm-smi` match) the percent is absent instead. -/
theorem gpu_vram_percent_consistent (plat : String) (handle : Bool)
    (nv : NvidiaEnv) (lhm : LhmGpu) (macVramTotal macCoreUsage : Option ℚ)
    (lin : LinuxGpuDetect) (u tot : ℚ)
    (hu : (gpuGetMetrics plat handle nv lhm macVramTotal macCoreUsage
        lin).vram_used_gb = some u)
    (ht : (gpuGetMetrics plat handle nv lhm macVramTotal macCoreUsage
        lin).vram_total_gb = some tot)
    (hnz : tot ≠ 0) :
    (gpuGetMetrics plat handle nv lhm macVramTotal macCoreUsage
        lin).vram_usage_percent = some (u / tot * 100) := by
  have hk3 : ((1024 : ℚ) ^ 3) ≠ 0 := by norm_num
  have hk1 : ((1024 : ℚ)) ≠ 0 := by norm_num
  by_cases hw : plat = "Windows"
  · simp only [gpuGetMetrics, hw, eq_self_iff_true, if_true] at hu ht ⊢
    rcases getNvidiaMetrics_vram handle nv with ⟨n1, _, _⟩ |
      ⟨a, b, _, _, n1, n2, n3⟩
    · rw [n1] at hu
      simp at hu
    · rw [n1] at hu
      rw [n2] at ht
      rw [n3, fillGap_some_left]
      exact some_pct_eq a b (1024 ^ 3) u tot hk3 hu ht
  · by_cases hd : plat = "Darwin"
    · simp only [gpuGetMetrics, hd,
        eq_false (show ("Darwin" : String) ≠ "Windows" by decide), if_false,
        eq_self_iff_true, if_true, gpuFillGapAll, getMacosGpuMetrics,
        gpuInit] at hu ht ⊢
      rcases getNvidiaMetrics_vram handle nv with ⟨n1, _, _⟩ |
        ⟨a, b, _, _, n1, n2, n3⟩
      · rw [n1, fillGap_none_left] at hu
        simp at hu
      · rw [n1, fillGap_some_left] at hu
        rw [n2, fillGap_some_left] at ht
        rw [n3, fillGap_some_left]
        exact some_pct_eq a b (1024 ^ 3) u tot hk3 hu ht
    · by_cases hl : plat = "Linux"
      · simp only [gpuGetMetrics, hl,
          eq_false (show ("Linux" : String) ≠ "Windows" by decide),
          eq_false (show ("Linux" : String) ≠ "Darwin" by decide), if_false,
          eq_self_iff_true, if_true, gpuFillGapAll] at hu ht ⊢
        rcases getNvidiaMetrics_vram handle nv with ⟨n1, n2, n3⟩ |
          ⟨a, b, _, _, n1, n2, n3⟩
        · rw [n1, fillGap_none_left] at hu
          rw [n2, fillGap_none_left] at ht
          rw [n3, fillGap_none_left]
          rcases getLinuxGpuMetrics_vram lin with ⟨l1, _, _⟩ |
            ⟨a, b, _, l1, l2, l3⟩ | ⟨a, l1, l2, l3⟩
          · rw [l1] at hu
            simp at hu
          · rw [l1] at hu
            rw [l2] at ht
            rw [l3]
            exact some_pct_eq a b 1024 u tot hk1 hu ht
          · rw [l2] at ht
            exact absurd (Option.some.inj ht) (by simpa using hnz.symm)
        · rw [n1, fillGap_some_left] at hu
          rw [n2, fillGap_some_left] at ht
          rw [n3, fillGap_some_left]
          exact some_pct_eq a b (1024 ^ 3) u tot hk3 hu ht
      · simp only [gpuGetMetrics, eq_false hw, eq_false hd, eq_false hl,
          if_false] at hu ht ⊢
        rcases getNvidiaMetrics_vram handle nv with ⟨n1, _, _⟩ |
          ⟨a, b, _, _, n1, n2, n3⟩
        · rw [n1] at hu
          simp at hu
        · rw [n1] at hu
          rw [n2] at ht
          rw [n3]
          exact some_pct_eq a b (1024 ^ 3) u tot hk3 hu ht

/-- Witness for the amended C9 at a concrete input (NVML path,
`mem_info = (2^30, 2^31)`). -/
theorem gpu_vram_percent_consistent_witness :
    ((gpuGetMetrics "Linux" true ⟨some 50, some 10, some 1500,
        some (1073741824, 2147483648), some 7000, none, none, none⟩
        ⟨none, none, none, none, none, none, none, none⟩ none none
        .nvidiaSeen).vram_used_gb = some 1 ∧
     (gpuGetMetrics "Linux" true ⟨some 50, some 10, some 1500,
        some (1073741824, 2147483648), some 7000, none, none, none⟩
        ⟨none, none, none, none, none, none, none, none⟩ none none
        .nvidiaSeen).vram_total_gb = some 2 ∧
     (2 : ℚ) ≠ 0) ∧
    (gpuGetMetrics "Linux" true ⟨some 50, some 10, some 1500,
        some (1073741824, 2147483648), some 7000, none, none, none⟩
        ⟨none, none, none, none, none, none, none, none⟩ none none
        .nvidiaSeen).vram_usage_percent = some (1 / 2 * 100) :=
  have hW : ("Linux" : String) ≠ "Windows" := by decide
  have hD : ("Linux" : String) ≠ "Darwin" := by decide
  have h1 : (gpuGetMetrics "Linux" true ⟨some 50, some 10, some 1500,
      some (1073741824, 2147483648), some 7000, none, none, none⟩
      ⟨none, none, none, none, none, none, none, none⟩ none none
      .nvidiaSeen).vram_used_gb = some 1 := by
    norm_num [gpuGetMetrics, getNvidiaMetrics, getLinuxGpuMetrics,
      gpuFillGapAll, gpuInit, fillGap, hW, hD]
  have h2 : (gpuGetMetrics "Linux" true ⟨some 50, some 10, some 1500,
      some (1073741824, 2147483648), some 7000, none, none, none⟩
      ⟨none, none, none, none, none, none, none, none⟩ none none
      .nvidiaSeen).vram_total_gb = some 2 := by
    norm_num [gpuGetMetrics, getNvidiaMetrics, getLinuxGpuMetrics,
      gpuFillGapAll, gpuInit, fillGap, hW, hD]
  ⟨⟨h1, h2, by norm_num⟩,
   gpu_vram_percent_consistent "Linux" true ⟨some 50, some 10, some 1500,
      some (1073741824, 2147483648), some 7000, none, none, none⟩
      ⟨none, none, none, none, none, none, none, none⟩ none none
      .nvidiaSeen 1 2 h1 h2 (by norm_num)⟩

/-! ## Aggregator (`src/monitor/utils/hardware_monitor.py`) -/

/-- The snapshot returned by `HardwareMonitor.get_all_metrics`: one
reading per category. -/
structure Snapshot where
  cpu : Reading
  gpu : Reading
  ram : Reading
  network : Reading
deriving DecidableEq, Repr

/-- `HardwareMonitor.get_all_metrics`: the four collector calls and the
dict assembly sit inside one single `try`; `except Exception` returns
`{"cpu": {}, "gpu": {}, "ram": {}, "network": {}}`.  Each argument is the
outcome of one collector's `get_metrics` (`error` = that collector
raised).  Because the whole body is one `try`, any collector raising
discards every reading (the collectors after the failing one are never
even called). -/
def getAllMetrics (c g r n : Except Unit Reading) : Snapshot :=
  match c, g, r, n with
  | .ok rc, .ok rg, .ok rr, .ok rn => ⟨rc, rg, rr, rn⟩
  | _, _, _, _ => ⟨[], [], [], []⟩

/-- C1, counterexample: the CPU collector raises while the GPU, RAM and
network collectors would return their normal readings; the snapshot does
*not* keep those readings — all four categories come back as the empty
dict, and the GPU collector's normal reading is not empty. -/
theorem aggregator_fault_counterexample :
    getAllMetrics (.error ()) (.ok (gpuToReading gpuInit))
        (.ok (ramToReading ⟨some 16, some 8, some 8, some 50, none⟩))
        (.ok (netToReading ⟨some 1, some 2, some 3, some 4⟩)) =
      ⟨[], [], [], []⟩ ∧
    gpuToReading gpuInit ≠ [] := by
  exact ⟨rfl, by simp [gpuToReading]⟩

/-- C1, amended: if any collector raises, the aggregator catches the
exception and returns a snapshot in which *all four* categories are the
empty reading — the other categories' values are discarded, not
preserved (the collectors after the failing one are never called);
when no collector raises, each reading is passed through unchanged. -/
theorem aggregator_failure_blanks (c g r n : Except Unit Reading)
    (rc rg rr rn : Reading) (e : Unit) :
    getAllMetrics (.error e) g r n = ⟨[], [], [], []⟩ ∧
    getAllMetrics c (.error e) r n = ⟨[], [], [], []⟩ ∧
    getAllMetrics c g (.error e) n = ⟨[], [], [], []⟩ ∧
    getAllMetrics c g r (.error e) = ⟨[], [], [], []⟩ ∧
    getAllMetrics (.ok rc) (.ok rg) (.ok rr) (.ok rn) = ⟨rc, rg, rr, rn⟩ := by
  refine ⟨?_, ?_, ?_, ?_, rfl⟩ <;>
    rcases c with _ | rc0 <;> rcases g with _ | rg0 <;>
    rcases r with _ | rr0 <;> rcases n with _ | rn0 <;> rfl

/-- C2, counterexample: when the CPU collector raises, the aggregator
returns the empty dict for every category, so the fixed CPU key `usage`
(and every other key) is omitted from the cpu mapping. -/
theorem keys_omitted_counterexample :
    keysOf (getAllMetrics (.error ()) (.ok (gpuToReading gpuInit))
        (.ok (ramToReading ⟨none, none, none, none, none⟩))
        (.ok (netToReading ⟨none, none, none, none⟩))).cpu = [] ∧
    ¬ "usage" ∈ keysOf (getAllMetrics (.error ())
        (.ok (gpuToReading gpuInit))
        (.ok (ramToReading ⟨none, none, none, none, none⟩))
        (.ok (netToReading ⟨none, none, none, none⟩))).cpu := by
  exact ⟨rfl, by simp [keysOf, getAllMetrics]⟩

/-- C2, amended: on every aggregator call in which no collector raises,
every fixed key of every category (§3 table) is present in that
category's mapping, possibly with an absent value — for any platform and
any collaborator outcomes; if a collector raises, the aggregator instead
returns empty mappings for all four categories (previous theorem). -/
theorem all_keys_present
    (plat : String) (wmiAvail : Bool) (conn : Option (List Sensor))
    (basic : CpuPartial) (mac : CpuMetrics) (lin : CpuPartial) (ou : ℚ)
    (handle : Bool) (nv : NvidiaEnv) (lhmG : LhmGpu) (mvt mcu : Option ℚ)
    (ld : LinuxGpuDetect)
    (inst : RAMCollector) (vm : Option (ℚ × ℚ × ℚ × ℚ)) (stR : RamCache)
    (nowR : ℚ) (q : Except Unit (Option ℚ)) (ltp : Option ℚ)
    (stN : NetState) (ps : Option (ℚ × ℚ)) (nowN : ℚ)
    (lhmN : Option (ℚ × ℚ)) :
    keysOf (getAllMetrics
      (.ok (cpuToReading (cpuGetMetrics plat wmiAvail conn basic mac lin ou)))
      (.ok (gpuToReading (gpuGetMetrics plat handle nv lhmG mvt mcu ld)))
      (.ok (ramToReading (ramGetMetrics inst wmiAvail vm stR nowR q ltp).1))
      (.ok (netToReading (netGetMetrics stN ps nowN lhmN).1))).cpu =
      ["frequency", "usage", "temperature", "voltage", "cpu_model"] ∧
    keysOf (getAllMetrics
      (.ok (cpuToReading (cpuGetMetrics plat wmiAvail conn basic mac lin ou)))
      (.ok (gpuToReading (gpuGetMetrics plat handle nv lhmG mvt mcu ld)))
      (.ok (ramToReading (ramGetMetrics inst wmiAvail vm stR nowR q ltp).1))
      (.ok (netToReading (netGetMetrics stN ps nowN lhmN).1))).gpu =
      ["core_frequency", "core_usage", "core_temperature",
       "memory_frequency", "vram_usage_percent", "memory_temperature",
       "hotspot_temperature", "fan_speed", "vram_used_gb",
       "vram_total_gb"] ∧
    keysOf (getAllMetrics
      (.ok (cpuToReading (cpuGetMetrics plat wmiAvail conn basic mac lin ou)))
      (.ok (gpuToReading (gpuGetMetrics plat handle nv lhmG mvt mcu ld)))
      (.ok (ramToReading (ramGetMetrics inst wmiAvail vm stR nowR q ltp).1))
      (.ok (netToReading (netGetMetrics stN ps nowN lhmN).1))).ram =
      ["total", "used", "available", "percent", "ram_temperature"] ∧
    keysOf (getAllMetrics
      (.ok (cpuToReading (cpuGetMetrics plat wmiAvail conn basic mac lin ou)))
      (.ok (gpuToReading (gpuGetMetrics plat handle nv lhmG mvt mcu ld)))
      (.ok (ramToReading (ramGetMetrics inst wmiAvail vm stR nowR q ltp).1))
      (.ok (netToReading (netGetMetrics stN ps nowN lhmN).1))).network =
      ["upload_speed", "download_speed", "total_sent", "total_received"] :=
  ⟨rfl, rfl, rfl, rfl⟩
